import Mathlib

/-!
Verification of the multi-LLM routing system: a shallow embedding of
`src/providers/base.py`, the provider adapters (`gemini.py`, `groq.py`,
`openrouter.py`, `huggingface.py`, `ollama.py`), `src/router.py` and
`src/evaluator.py`, together with theorems settling the specification
claims about them.

Modelling conventions:
* Python floats (latencies, scores, costs) are modelled as `ℚ`.
* `Optional[str]` credentials are `Option String`; Python truthiness of a
  string option (`if not self.api_key`) is `pyTruthy`.
* Each provider's interaction with the outside world (installed packages,
  HTTP responses, raised exceptions) is an explicit environment record;
  `generate_async` becomes a total function of that environment, so "the
  call raised" is an environment case, never a Lean-level failure.
* Python dicts are association lists in insertion order; key lookup is
  `getProvider` (first binding wins, as for a dict that never holds
  duplicate keys).
-/

namespace MultiLLM

/-- `LLMResponse` from `src/providers/base.py`: the standardized outcome of
one generation attempt. -/
structure LLMResponse where
  model_name : String
  content : String
  latency : ℚ
  tokens_used : Option Nat := none
  estimated_cost : ℚ := 0
  error : Option String := none
deriving DecidableEq, Repr

/-- `LLMResponse.success`: an outcome is successful iff its error field is
absent (`base.py`, the `success` property). -/
def LLMResponse.success (r : LLMResponse) : Bool :=
  r.error.isNone

/-- Python truthiness of an optional string: `None` and `""` are falsy. -/
def pyTruthy : Option String → Bool
  | none => false
  | some s => !s.isEmpty

/-! ### Provider adapters

Each environment record captures exactly the externally determined facts the
Python code branches on; the latency field is the wall-clock time measured by
`time.time() - start_time` at the point the code reads it. -/

/-- Environment for `GeminiProvider.generate_async`: whether the
`google.generativeai` package imports (so `_get_client` yields a client given
a truthy key), and the result of `client.generate_content` — `.ok text` is a
completed call with `text` the extracted content, `.error msg` a raised
exception with message `msg`. -/
structure GeminiEnv where
  packageInstalled : Bool
  callResult : Except String String
  latency : ℚ

/-- `GeminiProvider.generate_async` from `src/providers/gemini.py`.
`_get_client` is inlined: once the key check has passed, the client is `None`
exactly when the package import failed. -/
def geminiGenerate (api_key : Option String) (model : String) (env : GeminiEnv) : LLMResponse :=
  if !pyTruthy api_key then
    { model_name := model, content := "", latency := 0,
      error := some "Gemini API key not provided" }
  else if !env.packageInstalled then
    { model_name := model, content := "", latency := 0,
      error := some "google-generativeai package not installed" }
  else
    match env.callResult with
    | .ok content =>
        { model_name := model, content := content, latency := env.latency,
          estimated_cost := 0 }
    | .error e =>
        { model_name := model, content := "", latency := env.latency,
          error := some ("Request failed: " ++ e) }

/-- Environment for `GroqProvider.generate_async`: whether the `groq` package
imports, and the result of `client.chat.completions.create` — `.ok` carries
the message content and the optional total token count. -/
structure GroqEnv where
  packageInstalled : Bool
  callResult : Except String (String × Option Nat)
  latency : ℚ

/-- `GroqProvider.generate_async` from `src/providers/groq.py`, with
`_get_client` inlined as for Gemini. -/
def groqGenerate (api_key : Option String) (model : String) (env : GroqEnv) : LLMResponse :=
  if !pyTruthy api_key then
    { model_name := model, content := "", latency := 0,
      error := some "Groq API key not provided" }
  else if !env.packageInstalled then
    { model_name := model, content := "", latency := 0,
      error := some "groq package not installed" }
  else
    match env.callResult with
    | .ok (content, tokens) =>
        { model_name := model, content := content, latency := env.latency,
          tokens_used := tokens, estimated_cost := 0 }
    | .error e =>
        { model_name := model, content := "", latency := env.latency,
          error := some ("Request failed: " ++ e) }

/-- A completed HTTP exchange as seen by `openrouter.py` / `huggingface.py`:
status code, the content extracted from a 200 body, the optional token count,
and — for a non-200 body — `some detail` when `response.json()` parses
(appended to the error message) or `none` when it does not. -/
structure HttpExchange where
  status : Nat
  content : String
  tokens : Option Nat
  errorDetail : Option String

/-- Environment for an httpx-based provider: `.ok` is a completed exchange,
`.error msg` a raised exception (transport failure etc.) with message `msg`. -/
structure HttpEnv where
  result : Except String HttpExchange
  latency : ℚ

/-- The error text `openrouter.py`/`huggingface.py` build for a non-200
response: `"API error: {status}"` plus `" - {detail}"` when the error body
parses. -/
def apiErrorMsg (status : Nat) (detail : Option String) : String :=
  "API error: " ++ toString status ++
    (match detail with
     | some d => " - " ++ d
     | none => "")

/-- `OpenRouterProvider.generate_async` from `src/providers/openrouter.py`. -/
def openrouterGenerate (api_key : Option String) (model : String) (env : HttpEnv) : LLMResponse :=
  if !pyTruthy api_key then
    { model_name := model, content := "", latency := 0,
      error := some "OpenRouter API key not provided" }
  else
    match env.result with
    | .ok h =>
        if h.status = 200 then
          { model_name := model, content := h.content, latency := env.latency,
            tokens_used := h.tokens, estimated_cost := 0 }
        else
          { model_name := model, content := "", latency := env.latency,
            error := some (apiErrorMsg h.status h.errorDetail) }
    | .error e =>
        { model_name := model, content := "", latency := env.latency,
          error := some ("Request failed: " ++ e) }

/-- `HuggingFaceProvider.generate_async` from `src/providers/huggingface.py`
(the 200-body format dispatch is folded into the environment's extracted
`content`, exactly as for the other httpx providers). -/
def huggingfaceGenerate (api_key : Option String) (model : String) (env : HttpEnv) : LLMResponse :=
  if !pyTruthy api_key then
    { model_name := model, content := "", latency := 0,
      error := some "HuggingFace API key not provided" }
  else
    match env.result with
    | .ok h =>
        if h.status = 200 then
          { model_name := model, content := h.content, latency := env.latency,
            estimated_cost := 0 }
        else
          { model_name := model, content := "", latency := env.latency,
            error := some (apiErrorMsg h.status h.errorDetail) }
    | .error e =>
        { model_name := model, content := "", latency := env.latency,
          error := some ("Request failed: " ++ e) }

/-- The two exception classes `ollama.py` distinguishes:
`httpx.ConnectError` and any other exception. -/
inductive OllamaExn where
  | connectError
  | other (msg : String)

/-- Environment for `OllamaProvider.generate_async`: `.ok (status, content)`
is a completed POST (`content` being `result.get("response", "")` of a 200
body), `.error` a raised exception. -/
structure OllamaEnv where
  result : Except OllamaExn (Nat × String)
  latency : ℚ

/-- `OllamaProvider.generate_async` from `src/providers/ollama.py`; the model
name is stamped as `"ollama/" ++ model` on every path. -/
def ollamaGenerate (model : String) (env : OllamaEnv) : LLMResponse :=
  match env.result with
  | .ok (status, content) =>
      if status = 200 then
        { model_name := "ollama/" ++ model, content := content,
          latency := env.latency, estimated_cost := 0 }
      else
        { model_name := "ollama/" ++ model, content := "",
          latency := env.latency,
          error := some ("Ollama API error: " ++ toString status) }
  | .error .connectError =>
      { model_name := "ollama/" ++ model, content := "",
        latency := env.latency,
        error := some "Cannot connect to Ollama. Is it running? Install from https://ollama.ai/" }
  | .error (.other msg) =>
      { model_name := "ollama/" ++ model, content := "",
        latency := env.latency,
        error := some ("Request failed: " ++ msg) }

/-! ### Router (`src/router.py`)

The router's state `self.providers` is an association list in insertion
order.  For `query_all` each registered provider's behaviour on the given
prompt is a `GenOutcome` (either the `LLMResponse` it returns, or the message
of the exception its invocation raised — the case `asyncio.gather(...,
return_exceptions=True)` hands back as an `Exception` value).  For the
sequential waterfall each provider's behaviour is the `LLMResponse` its
`generate_async` returns (by the provider contract it does not raise). -/

/-- `UseCase` from `src/router.py`. -/
inductive UseCase where
  | healthcare
  | accessibility
  | general
  | cost_sensitive
deriving DecidableEq, Repr

/-- `MultiLLMRouter.USE_CASE_PREFERENCES` from `src/router.py`. -/
def USE_CASE_PREFERENCES : UseCase → List String
  | .healthcare => ["gemini", "groq", "huggingface"]
  | .accessibility => ["groq", "gemini", "openrouter"]
  | .general => ["groq", "ollama", "gemini"]
  | .cost_sensitive => ["ollama", "groq", "openrouter"]

/-- `self.providers.get(name)`: first binding for `name`, if any
(`MultiLLMRouter.get_provider`). -/
def getProvider {α : Type} (ps : List (String × α)) (name : String) : Option α :=
  (ps.find? (fun p => p.1 == name)).map Prod.snd

/-- `MultiLLMRouter.register_provider`: `self.providers[name] = provider`.
A Python dict assignment replaces an existing binding in place (keeping its
position) and otherwise appends the new binding. -/
def register_provider {α : Type} (ps : List (String × α)) (name : String) (provider : α) :
    List (String × α) :=
  if ps.any (fun p => p.1 == name) then
    ps.map (fun p => if p.1 == name then (p.1, provider) else p)
  else
    ps ++ [(name, provider)]

/-- `MultiLLMRouter.list_providers`: `list(self.providers.keys())`. -/
def list_providers {α : Type} (ps : List (String × α)) : List String :=
  ps.map Prod.fst

/-- How one provider's `generate_async(prompt)` invocation ends, as observed
through `asyncio.gather(..., return_exceptions=True)`: either the
`LLMResponse` it returned, or the raised exception's message. -/
inductive GenOutcome where
  | ok (r : LLMResponse)
  | exn (msg : String)
deriving DecidableEq, Repr

/-- The failed response `query_all_async` synthesizes for a provider whose
invocation raised (`router.py` lines 86–93). -/
def exnResponse (name msg : String) : LLMResponse :=
  { model_name := name, content := "", latency := 0,
    error := some ("Exception: " ++ msg) }

/-- `MultiLLMRouter.query_all_async`: gathers every registered provider's
outcome and keys the results by registration name, converting a raised
exception into `exnResponse`. -/
def query_all_async (providers : List (String × GenOutcome)) : List (String × LLMResponse) :=
  providers.map (fun p =>
    (p.1,
      match p.2 with
      | .ok r => r
      | .exn msg => exnResponse p.1 msg))

/-- The synthetic outcome returned when every provider failed
(`router.py` lines 147–152). -/
def noProvidersResponse : LLMResponse :=
  { model_name := "none", content := "", latency := 0,
    error := some "No providers available or all providers failed" }

/-- Phase 1 of `query_best_for_use_case_async` (`router.py` lines 132–137):
walk the preference list, skip unregistered names, invoke each registered one
and stop at the first success.  Returns the trace of invoked provider names
together with the first successful response, if any. -/
def tryPreferred (ps : List (String × LLMResponse)) : List String → List String × Option LLMResponse
  | [] => ([], none)
  | name :: rest =>
    match getProvider ps name with
    | none => tryPreferred ps rest
    | some r =>
      if r.success then ([name], some r)
      else (name :: (tryPreferred ps rest).1, (tryPreferred ps rest).2)

/-- Phase 2 of `query_best_for_use_case_async` (`router.py` lines 140–144):
walk the registered providers in mapping order, skip names in the preference
list, and stop at the first success. -/
def tryFallback (prefs : List String) : List (String × LLMResponse) → List String × Option LLMResponse
  | [] => ([], none)
  | p :: rest =>
    if prefs.contains p.1 then tryFallback prefs rest
    else if p.2.success then ([p.1], some p.2)
    else (p.1 :: (tryFallback prefs rest).1, (tryFallback prefs rest).2)

/-- `MultiLLMRouter.query_best_for_use_case_async`, instrumented with the
trace of provider invocations: phase 1 over the preference list, phase 2
over the remaining registered providers, then the synthetic failure. -/
def query_best (ps : List (String × LLMResponse)) (prefs : List String) :
    List String × LLMResponse :=
  match tryPreferred ps prefs with
  | (t, some r) => (t, r)
  | (t₁, none) =>
    match tryFallback prefs ps with
    | (t₂, some r) => (t₁ ++ t₂, r)
    | (t₂, none) => (t₁ ++ t₂, noProvidersResponse)

/-- `MultiLLMRouter.get_use_case_explanation` from `src/router.py`. -/
def get_use_case_explanation : UseCase → String
  | .healthcare => "For healthcare queries, we prioritize accurate and reliable models like Gemini and Groq that can provide detailed medical information."
  | .accessibility => "For accessibility needs, we use fast models like Groq and Gemini that provide clear, easy-to-understand responses quickly."
  | .general => "For general queries, we balance speed and quality using Groq and Ollama for fast, helpful responses."
  | .cost_sensitive => "For cost-sensitive users, we prioritize free local models like Ollama and free tier services."

/-! State-threading forms of the router's read-only operations.  The Python
methods run against the mutable `self.providers`; the embedding makes the
state explicit, each operation returning its value together with the
dispatcher state it leaves behind.  None of them contains a mutation of the
mapping, which the frame theorem below records. -/

/-- `query_all_async` as a state-threading operation on the dispatcher. -/
def query_all_st (ps : List (String × GenOutcome)) :
    List (String × LLMResponse) × List (String × GenOutcome) :=
  (query_all_async ps, ps)

/-- `query_best_for_use_case_async` as a state-threading operation. -/
def query_best_st (ps : List (String × LLMResponse)) (prefs : List String) :
    (List String × LLMResponse) × List (String × LLMResponse) :=
  (query_best ps prefs, ps)

/-- `get_provider` as a state-threading operation. -/
def get_provider_st {α : Type} (ps : List (String × α)) (name : String) :
    Option α × List (String × α) :=
  (getProvider ps name, ps)

/-- `list_providers` as a state-threading operation. -/
def list_providers_st {α : Type} (ps : List (String × α)) :
    List String × List (String × α) :=
  (list_providers ps, ps)

/-- `get_use_case_explanation` as a state-threading operation. -/
def explain_st {α : Type} (ps : List (String × α)) (uc : UseCase) :
    String × List (String × α) :=
  (get_use_case_explanation uc, ps)

/-! ### Evaluator (`src/evaluator.py`) -/

/-- `text.split()` in Python: split on runs of whitespace, discarding empty
pieces.  Implemented by direct recursion on the character list (`acc` is the
reversed current word). -/
def pySplitAux : List Char → List Char → List String
  | [], acc => if acc.isEmpty then [] else [String.mk acc.reverse]
  | c :: cs, acc =>
    if c.isWhitespace then
      (if acc.isEmpty then [] else [String.mk acc.reverse]) ++ pySplitAux cs []
    else
      pySplitAux cs (c :: acc)

/-- Python `text.split()` (whitespace words of `text`). -/
def pyWords (text : String) : List String :=
  pySplitAux text.data []

/-- Python `text.count(c)` for a single-character needle. -/
def countChar (text : String) (c : Char) : Nat :=
  text.data.count c

/-- Python `round(x, 2)` on the exact rational value: round `100·x` to the
nearest integer and divide back.  (CPython rounds ties of the underlying
float to even; no claim below depends on tie behaviour.) -/
def round2 (q : ℚ) : ℚ :=
  (round (q * 100) : ℤ) / 100

/-- What the `textstat` dependency contributes to
`ResponseEvaluator.calculate_readability`: whether the import succeeds, and —
as oracles — the two scores and the sentence count it computes for a text. -/
structure TextstatEnv where
  available : Bool
  fleschReadingEase : String → ℚ
  fleschKincaidGrade : String → ℚ
  sentenceCount : String → Nat

/-- The readability dictionary `calculate_readability` returns: the full form
(textstat present) or the degraded fallback form (textstat missing), which
carries no reading-ease score. -/
inductive Readability where
  | full (flesch_reading_ease : ℚ) (flesch_kincaid_grade : ℚ)
      (interpretation : String) (word_count : Nat) (sentence_count : Nat)
  | degraded (word_count : Nat) (sentence_count : Nat)
      (avg_word_length : ℚ) (interpretation : String)
deriving DecidableEq, Repr

/-- The Flesch-reading-ease interpretation ladder
(`evaluator.py` lines 31–44). -/
def interpretEase (score : ℚ) : String :=
  if score ≥ 90 then "Very Easy (5th grade)"
  else if score ≥ 80 then "Easy (6th grade)"
  else if score ≥ 70 then "Fairly Easy (7th grade)"
  else if score ≥ 60 then "Standard (8th-9th grade)"
  else if score ≥ 50 then "Fairly Difficult (10th-12th grade)"
  else if score ≥ 30 then "Difficult (College)"
  else "Very Difficult (College graduate)"

/-- The degraded-metrics marker string of the fallback branch. -/
def degradedMarker : String :=
  "Basic metrics only (install textstat for full analysis)"

/-- `ResponseEvaluator.calculate_readability`: full metrics via textstat, or
the `except ImportError` fallback counting words and sentence-terminator
punctuation (clamped to at least one sentence). -/
def calculate_readability (env : TextstatEnv) (text : String) : Readability :=
  if env.available then
    Readability.full (round2 (env.fleschReadingEase text))
      (round2 (env.fleschKincaidGrade text))
      (interpretEase (env.fleschReadingEase text))
      (pyWords text).length
      (env.sentenceCount text)
  else
    let words := pyWords text
    let sentences := max 1 (countChar text '.' + countChar text '!' + countChar text '?')
    Readability.degraded words.length sentences
      (((words.map String.length).sum : ℚ) / (max 1 words.length : ℕ))
      degradedMarker

/-- The evaluation dictionary `ResponseEvaluator.evaluate_response` returns.
A failure record sets only `success`, `error` and `model`; a success record
sets everything but `error`. -/
structure Evaluation where
  success : Bool
  model : String
  error : Option String := none
  latency : Option ℚ := none
  speed_rating : Option String := none
  tokens_used : Option Nat := none
  cost : Option ℚ := none
  readability : Option Readability := none
  response_length : Option Nat := none
deriving DecidableEq, Repr

/-- The latency-threshold speed rating (`evaluator.py` lines 87–96). -/
def speedRating (latency : ℚ) : String :=
  if latency < 1 then "Very Fast"
  else if latency < 3 then "Fast"
  else if latency < 5 then "Moderate"
  else if latency < 10 then "Slow"
  else "Very Slow"

/-- `ResponseEvaluator.evaluate_response`. -/
def evaluate_response (env : TextstatEnv) (r : LLMResponse) : Evaluation :=
  if !r.success then
    { success := false, error := r.error, model := r.model_name }
  else
    { success := true, model := r.model_name,
      latency := some (round2 r.latency),
      speed_rating := some (speedRating r.latency),
      tokens_used := r.tokens_used,
      cost := some r.estimated_cost,
      readability := some (calculate_readability env r.content),
      response_length := some r.content.length }

/-- `eval_data.get("latency", float('inf'))` compared with `<`: `none` plays
the role of `+inf`. -/
def latLt (a b : Option ℚ) : Bool :=
  match a, b with
  | some x, some y => x < y
  | some _, none => true
  | none, _ => false

/-- `min(successful.items(), key=...)`: Python's `min` keeps the first
element attaining the minimum, replacing the running best only on a strictly
smaller key. -/
def minByLatency (first : String × Evaluation) (rest : List (String × Evaluation)) :
    String × Evaluation :=
  rest.foldl (fun best p => if latLt p.2.latency best.2.latency then p else best) first

/-- `eval_data.get("readability", {}).get("flesch_reading_ease",
float('-inf'))`: the computed reading-ease score, absent (`none`, playing
`-inf`) for degraded metrics. -/
def easeOf (e : Evaluation) : Option ℚ :=
  match e.readability with
  | some (.full ease _ _ _ _) => some ease
  | _ => none

/-- `readability_score > highest_readability and readability_score !=
float('-inf')` with `none` as `-inf`. -/
def easeGt (score highest : Option ℚ) : Bool :=
  match score, highest with
  | some s, some h => s > h
  | some _, none => true
  | none, _ => false

/-- The most-readable loop of `compare_responses` (`evaluator.py` lines
138–145), folding over the successful evaluations in order. -/
def mostReadableLoop (successes : List (String × Evaluation)) : Option String :=
  (successes.foldl
    (fun acc p => if easeGt (easeOf p.2) acc.2 then (some p.1, easeOf p.2) else acc)
    ((none : Option String), (none : Option ℚ))).1

/-- The comparison report `ResponseEvaluator.compare_responses` returns. -/
structure Report where
  evaluations : List (String × Evaluation)
  total_models : Nat
  successful_models : Nat
  fastest_model : Option String := none
  fastest_latency : Option ℚ := none
  most_readable_model : Option String := none
  error : Option String := none
deriving Repr

/-- `ResponseEvaluator.compare_responses`. -/
def compare_responses (env : TextstatEnv) (responses : List (String × LLMResponse)) : Report :=
  let evaluations := responses.map (fun p => (p.1, evaluate_response env p.2))
  let successful := evaluations.filter (fun p => p.2.success)
  match successful with
  | [] =>
    { evaluations := evaluations, total_models := responses.length,
      successful_models := 0, error := some "All models failed" }
  | s :: rest =>
    let fastest := minByLatency s rest
    { evaluations := evaluations,
      fastest_model := some fastest.1,
      fastest_latency := fastest.2.latency,
      most_readable_model := mostReadableLoop (s :: rest),
      total_models := responses.length,
      successful_models := (s :: rest).length }

/-! ### Specification-side definitions

These definitions follow the wording of the specification rather than the
control flow of the Python code; the refinement theorems below compare the
code-side definitions against them. -/

/-- Spec wording for a waterfall over an explicit candidate list: invoke each
candidate in order, stop at the first successful outcome.  Returns the names
invoked and the first success, if any. -/
def firstSuccess : List (String × LLMResponse) → List String × Option LLMResponse
  | [] => ([], none)
  | p :: rest =>
    if p.2.success then ([p.1], some p.2)
    else (p.1 :: (firstSuccess rest).1, (firstSuccess rest).2)

/-- The use case's preference list restricted to registered names, in
preference-list order, each paired with its registered provider's response:
"attempts providers strictly in the use case's preference-list order
(skipping names not registered)". -/
def registeredPreferred (ps : List (String × LLMResponse)) (prefs : List String) :
    List (String × LLMResponse) :=
  prefs.filterMap (fun name => (getProvider ps name).map (fun r => (name, r)))

/-- The registered providers not named in the preference list, in mapping
order: "the remaining registered providers not in the preference list". -/
def nonPreferred (ps : List (String × LLMResponse)) (prefs : List String) :
    List (String × LLMResponse) :=
  ps.filter (fun p => !(prefs.contains p.1))

/-- The waterfall as the specification words it: first success over the
registered preferred candidates, then — only if that phase found none — first
success over the remaining registered providers, then the synthetic
failure. -/
def spec_query_best (ps : List (String × LLMResponse)) (prefs : List String) :
    List String × LLMResponse :=
  match firstSuccess (registeredPreferred ps prefs) with
  | (t, some r) => (t, r)
  | (t₁, none) =>
    match firstSuccess (nonPreferred ps prefs) with
    | (t₂, some r) => (t₁ ++ t₂, r)
    | (t₂, none) => (t₁ ++ t₂, noProvidersResponse)

/-- The successes that carry a computed reading-ease score, paired with that
score (degraded-metric evaluations drop out here). -/
def scoredSuccesses (l : List (String × Evaluation)) : List (String × ℚ) :=
  l.filterMap (fun p => (easeOf p.2).map (fun q => (p.1, q)))

/-- First-encountered maximum by score: the element with the highest score,
the earliest one on ties. -/
def firstArgmax : List (String × ℚ) → Option (String × ℚ)
  | [] => none
  | x :: rest => some (rest.foldl (fun best p => if p.2 > best.2 then p else best) x)

/-- The specification's most-readable selection: the name of the success with
the highest computed reading-ease score, absent when no success carries
one. -/
def spec_most_readable (successes : List (String × Evaluation)) : Option String :=
  (firstArgmax (scoredSuccesses successes)).map Prod.fst

/-- The error form `query_all_async` uses for a raised invocation
(an `"Exception: "`-prefixed message), checked on the character list. -/
def exceptionForm (e : String) : Bool :=
  "Exception: ".data.isPrefixOf e.data

/-! ### Helper lemmas -/

theorem tryPreferred_eq_firstSuccess (ps : List (String × LLMResponse)) (prefs : List String) :
    tryPreferred ps prefs = firstSuccess (registeredPreferred ps prefs) := by
  induction prefs with
  | nil => rfl
  | cons name rest ih =>
    rw [tryPreferred, registeredPreferred, List.filterMap_cons]
    cases h : getProvider ps name with
    | none => simpa [h, registeredPreferred] using ih
    | some r =>
      cases hs : r.success with
      | true => simp [h, hs, firstSuccess]
      | false => simp [h, hs, firstSuccess, ih, registeredPreferred]

theorem tryFallback_eq_firstSuccess (prefs : List String) (ps : List (String × LLMResponse)) :
    tryFallback prefs ps = firstSuccess (nonPreferred ps prefs) := by
  induction ps with
  | nil => rfl
  | cons p rest ih =>
    rw [tryFallback, nonPreferred, List.filter_cons]
    cases hc : prefs.contains p.1 with
    | true => simpa [hc, nonPreferred] using ih
    | false =>
      cases hs : p.2.success with
      | true => simp [hc, hs, firstSuccess]
      | false => simp [hc, hs, firstSuccess, ih, nonPreferred]

theorem query_best_eq_spec (ps : List (String × LLMResponse)) (prefs : List String) :
    query_best ps prefs = spec_query_best ps prefs := by
  rw [query_best, spec_query_best, tryPreferred_eq_firstSuccess, tryFallback_eq_firstSuccess]

theorem firstSuccess_eq_none_iff (l : List (String × LLMResponse)) :
    (firstSuccess l).2 = none ↔ ∀ p ∈ l, p.2.success = false := by
  induction l with
  | nil => simp [firstSuccess]
  | cons p rest ih =>
    cases hs : p.2.success with
    | true => simp [firstSuccess, hs]
    | false => simp [firstSuccess, hs, ih]

theorem mem_firstSuccess_trace (l : List (String × LLMResponse)) (n : String)
    (hn : n ∈ (firstSuccess l).1) : n ∈ l.map Prod.fst := by
  induction l with
  | nil => simp [firstSuccess] at hn
  | cons p rest ih =>
    cases hs : p.2.success with
    | true =>
      rw [firstSuccess] at hn
      simp [hs] at hn
      simp [hn]
    | false =>
      rw [firstSuccess] at hn
      simp [hs] at hn
      rcases hn with hn | hn
      · simp [hn]
      · simp [ih hn]

theorem getProvider_eq_some {ps : List (String × LLMResponse)} {name : String}
    {r : LLMResponse} (h : getProvider ps name = some r) : ∃ q ∈ ps, q.2 = r := by
  rw [getProvider] at h
  rw [Option.map_eq_some'] at h
  obtain ⟨q, hq, hr⟩ := h
  exact ⟨q, List.mem_of_find?_eq_some hq, hr⟩

theorem mem_registeredPreferred {ps : List (String × LLMResponse)} {prefs : List String}
    {p : String × LLMResponse} (h : p ∈ registeredPreferred ps prefs) :
    p.1 ∈ prefs ∧ ∃ q ∈ ps, q.2 = p.2 := by
  rw [registeredPreferred, List.mem_filterMap] at h
  obtain ⟨name, hname, hmap⟩ := h
  rw [Option.map_eq_some'] at hmap
  obtain ⟨r, hr, hp⟩ := hmap
  subst hp
  exact ⟨hname, getProvider_eq_some hr⟩

theorem mem_nonPreferred {ps : List (String × LLMResponse)} {prefs : List String}
    {p : String × LLMResponse} (h : p ∈ nonPreferred ps prefs) : p ∈ ps := by
  rw [nonPreferred] at h
  exact List.mem_of_mem_filter h

theorem spec_query_best_trace_some {ps : List (String × LLMResponse)} {prefs : List String}
    {r : LLMResponse} (h : (firstSuccess (registeredPreferred ps prefs)).2 = some r) :
    (spec_query_best ps prefs).1 = (firstSuccess (registeredPreferred ps prefs)).1 := by
  rw [spec_query_best]
  rcases hfs : firstSuccess (registeredPreferred ps prefs) with ⟨t, res⟩
  rw [hfs] at h
  simp only at h
  subst h
  rfl

/-! ### Claim theorems -/

/-- Claim C2: `query_best_for_use_case` attempts providers strictly in the
use case's preference-list order (skipping names that are not registered),
returns the first successful outcome without invoking any later provider,
and falls back to the remaining registered providers — in mapping order,
first success wins — only after every registered preference-list provider
has been tried and failed.  Conjunct 1 equates the instrumented code (the
invocation trace together with the returned response) with the waterfall as
the specification words it; conjunct 2 states directly that a provider
outside the preference list is invoked only when every registered
preference-list provider fails. -/
theorem query_best_follows_preference_waterfall
    (ps : List (String × LLMResponse)) (prefs : List String) :
    query_best ps prefs = spec_query_best ps prefs ∧
    ((query_best ps prefs).1.any (fun n => !(prefs.contains n)) = true →
      (registeredPreferred ps prefs).all (fun p => !p.2.success) = true) := by
  refine ⟨query_best_eq_spec ps prefs, ?_⟩
  intro h
  rw [List.all_eq_true]
  intro p hp
  cases hres : (firstSuccess (registeredPreferred ps prefs)).2 with
  | none =>
    have hall := (firstSuccess_eq_none_iff (registeredPreferred ps prefs)).1 hres
    simp [hall p hp]
  | some r =>
    exfalso
    rw [query_best_eq_spec, spec_query_best_trace_some hres] at h
    rw [List.any_eq_true] at h
    obtain ⟨n, hn, hcont⟩ := h
    have hmem := mem_firstSuccess_trace (registeredPreferred ps prefs) n hn
    rw [List.mem_map] at hmem
    obtain ⟨q, hq, rfl⟩ := hmem
    have := (mem_registeredPreferred hq).1
    simp [this] at hcont

/-- Witness for C2 at a concrete input: provider "alpha" is preferred and
fails, "beta" is outside the preference list and succeeds; the fallback is
invoked, so every registered preferred provider indeed failed, and the
instrumented run agrees with the specification waterfall. -/
theorem query_best_follows_preference_waterfall_witness :
    (registeredPreferred
        [("alpha", ⟨"a", "", 0, none, 0, some "boom"⟩),
         ("beta", ⟨"b", "hi", 2, none, 0, none⟩)] ["alpha"]).all
      (fun p => !p.2.success) = true ∧
    query_best
        [("alpha", ⟨"a", "", 0, none, 0, some "boom"⟩),
         ("beta", ⟨"b", "hi", 2, none, 0, none⟩)] ["alpha"] =
      spec_query_best
        [("alpha", ⟨"a", "", 0, none, 0, some "boom"⟩),
         ("beta", ⟨"b", "hi", 2, none, 0, none⟩)] ["alpha"] :=
  ⟨(query_best_follows_preference_waterfall
      [("alpha", ⟨"a", "", 0, none, 0, some "boom"⟩),
       ("beta", ⟨"b", "hi", 2, none, 0, none⟩)] ["alpha"]).2 (by decide),
   (query_best_follows_preference_waterfall
      [("alpha", ⟨"a", "", 0, none, 0, some "boom"⟩),
       ("beta", ⟨"b", "hi", 2, none, 0, none⟩)] ["alpha"]).1⟩

/-- Claim C5: when no registered provider returns a successful outcome
(including the case of no registered provider at all), the waterfall returns
the synthetic failed outcome whose model identifier is exactly `"none"` and
whose error field is present. -/
theorem query_best_all_failed_synthetic
    (ps : List (String × LLMResponse)) (prefs : List String)
    (h : ps.all (fun p => !p.2.success) = true) :
    (query_best ps prefs).2 = noProvidersResponse ∧
    noProvidersResponse.model_name = "none" ∧
    noProvidersResponse.error.isSome = true := by
  refine ⟨?_, rfl, rfl⟩
  rw [query_best_eq_spec, spec_query_best]
  rw [List.all_eq_true] at h
  have h1 : (firstSuccess (registeredPreferred ps prefs)).2 = none := by
    rw [firstSuccess_eq_none_iff]
    intro p hp
    obtain ⟨q, hq, hpq⟩ := (mem_registeredPreferred hp).2
    rw [← hpq]
    simpa using h q hq
  have h2 : (firstSuccess (nonPreferred ps prefs)).2 = none := by
    rw [firstSuccess_eq_none_iff]
    intro p hp
    simpa using h p (mem_nonPreferred hp)
  rcases hfs1 : firstSuccess (registeredPreferred ps prefs) with ⟨t1, r1⟩
  rw [hfs1] at h1
  simp only at h1
  subst h1
  rcases hfs2 : firstSuccess (nonPreferred ps prefs) with ⟨t2, r2⟩
  rw [hfs2] at h2
  simp only at h2
  subst h2
  rfl

/-- Witness for C5 at a concrete input: one registered provider (also
preferred) that fails — the synthetic `"none"` outcome comes back. -/
theorem query_best_all_failed_synthetic_witness :
    (query_best [("gemini", ⟨"gemini-pro", "", 0, none, 0, some "Gemini API key not provided"⟩)]
        ["gemini"]).2 = noProvidersResponse ∧
    noProvidersResponse.model_name = "none" ∧
    noProvidersResponse.error.isSome = true :=
  query_best_all_failed_synthetic
    [("gemini", ⟨"gemini-pro", "", 0, none, 0, some "Gemini API key not provided"⟩)]
    ["gemini"] (by decide)

theorem find?_key_of_mem_nodup {α : Type} {ps : List (String × α)} {name : String} {out : α}
    (hnd : (ps.map Prod.fst).Nodup) (hmem : (name, out) ∈ ps) :
    ps.find? (fun p => p.1 == name) = some (name, out) := by
  induction ps with
  | nil => simp at hmem
  | cons q rest ih =>
    rw [List.map_cons, List.nodup_cons] at hnd
    rcases List.mem_cons.1 hmem with h | h
    · subst h
      simp [List.find?_cons]
    · have hq : (q.1 == name) = false := by
        rw [beq_eq_false_iff_ne]
        intro hqn
        exact hnd.1 (by simpa [hqn] using List.mem_map_of_mem Prod.fst h)
      rw [List.find?_cons, hq]
      exact ih hnd.2 h

theorem getProvider_query_all {providers : List (String × GenOutcome)} {name : String}
    {out : GenOutcome} (hnd : (providers.map Prod.fst).Nodup) (hmem : (name, out) ∈ providers) :
    getProvider (query_all_async providers) name =
      some (match out with
            | .ok r => r
            | .exn msg => exnResponse name msg) := by
  rw [getProvider, query_all_async, List.find?_map]
  have hcomp : ((fun p : String × LLMResponse => p.1 == name) ∘
      (fun p : String × GenOutcome =>
        (p.1, match p.2 with
              | .ok r => r
              | .exn msg => exnResponse p.1 msg))) = fun p => p.1 == name := rfl
  rw [hcomp, find?_key_of_mem_nodup hnd hmem]
  cases out <;> rfl

theorem exceptionForm_exception (msg : String) :
    exceptionForm ("Exception: " ++ msg) = true := by
  rw [exceptionForm, String.data_append, List.isPrefixOf_iff_prefix]
  exact List.prefix_append _ _

theorem exceptionForm_requestFailed (t : String) :
    exceptionForm ("Request failed: " ++ t) = false := by
  rw [exceptionForm, String.data_append]
  rfl

theorem exceptionForm_apiError (status : Nat) (detail : Option String) :
    exceptionForm (apiErrorMsg status detail) = false := by
  rw [apiErrorMsg.eq_def, exceptionForm, String.data_append, String.data_append]
  rfl

theorem exceptionForm_ollamaApiError (status : Nat) :
    exceptionForm ("Ollama API error: " ++ toString status) = false := by
  rw [exceptionForm, String.data_append]
  rfl

theorem gemini_error_not_exception_form (key : Option String) (model : String)
    (env : GeminiEnv) (e : String) (h : (geminiGenerate key model env).error = some e) :
    exceptionForm e = false := by
  rw [geminiGenerate] at h
  split at h
  · simp only [Option.some.injEq] at h
    subst h
    decide
  · split at h
    · simp only [Option.some.injEq] at h
      subst h
      decide
    · split at h
      · simp at h
      · simp only [Option.some.injEq] at h
        subst h
        exact exceptionForm_requestFailed _

theorem groq_error_not_exception_form (key : Option String) (model : String)
    (env : GroqEnv) (e : String) (h : (groqGenerate key model env).error = some e) :
    exceptionForm e = false := by
  rw [groqGenerate] at h
  split at h
  · simp only [Option.some.injEq] at h
    subst h
    decide
  · split at h
    · simp only [Option.some.injEq] at h
      subst h
      decide
    · split at h
      · simp at h
      · simp only [Option.some.injEq] at h
        subst h
        exact exceptionForm_requestFailed _

theorem openrouter_error_not_exception_form (key : Option String) (model : String)
    (env : HttpEnv) (e : String) (h : (openrouterGenerate key model env).error = some e) :
    exceptionForm e = false := by
  rw [openrouterGenerate] at h
  split at h
  · simp only [Option.some.injEq] at h
    subst h
    decide
  · split at h
    · split at h
      · simp at h
      · simp only [Option.some.injEq] at h
        subst h
        exact exceptionForm_apiError _ _
    · simp only [Option.some.injEq] at h
      subst h
      exact exceptionForm_requestFailed _

theorem huggingface_error_not_exception_form (key : Option String) (model : String)
    (env : HttpEnv) (e : String) (h : (huggingfaceGenerate key model env).error = some e) :
    exceptionForm e = false := by
  rw [huggingfaceGenerate] at h
  split at h
  · simp only [Option.some.injEq] at h
    subst h
    decide
  · split at h
    · split at h
      · simp at h
      · simp only [Option.some.injEq] at h
        subst h
        exact exceptionForm_apiError _ _
    · simp only [Option.some.injEq] at h
      subst h
      exact exceptionForm_requestFailed _

theorem ollama_error_not_exception_form (model : String) (env : OllamaEnv) (e : String)
    (h : (ollamaGenerate model env).error = some e) : exceptionForm e = false := by
  rw [ollamaGenerate] at h
  split at h
  · split at h
    · simp at h
    · simp only [Option.some.injEq] at h
      subst h
      exact exceptionForm_ollamaApiError _
  · simp only [Option.some.injEq] at h
    subst h
    decide
  · simp only [Option.some.injEq] at h
    subst h
    exact exceptionForm_requestFailed _

/-- Claim C1: over any registered-provider mapping with `N` entries,
`query_all` returns exactly `N` entries, one keyed by each registered name,
however many providers fail; a provider whose invocation raised (rather than
returning an outcome) is mapped to a failed outcome attributed to its
registration name, with empty content, zero latency, and an
`"Exception: "`-prefixed error — a form none of the backend-reported errors
of the embedded providers ever takes. -/
theorem query_all_total_coverage (providers : List (String × GenOutcome))
    (hnd : (providers.map Prod.fst).Nodup) :
    (query_all_async providers).length = providers.length ∧
    list_providers (query_all_async providers) = list_providers providers ∧
    (∀ name msg, (name, GenOutcome.exn msg) ∈ providers →
      getProvider (query_all_async providers) name = some (exnResponse name msg)) ∧
    (∀ name r, (name, GenOutcome.ok r) ∈ providers →
      getProvider (query_all_async providers) name = some r) ∧
    (∀ name msg, (exnResponse name msg).model_name = name ∧
      (exnResponse name msg).content = "" ∧
      (exnResponse name msg).latency = 0 ∧
      (exnResponse name msg).error = some ("Exception: " ++ msg) ∧
      exceptionForm ("Exception: " ++ msg) = true) ∧
    (∀ key model env e, (geminiGenerate key model env).error = some e →
      exceptionForm e = false) ∧
    (∀ key model env e, (groqGenerate key model env).error = some e →
      exceptionForm e = false) ∧
    (∀ key model env e, (openrouterGenerate key model env).error = some e →
      exceptionForm e = false) ∧
    (∀ key model env e, (huggingfaceGenerate key model env).error = some e →
      exceptionForm e = false) ∧
    (∀ model env e, (ollamaGenerate model env).error = some e →
      exceptionForm e = false) := by
  refine ⟨by simp [query_all_async], by simp [query_all_async, list_providers], ?_, ?_,
    fun name msg => ⟨rfl, rfl, rfl, rfl, exceptionForm_exception msg⟩,
    gemini_error_not_exception_form, groq_error_not_exception_form,
    openrouter_error_not_exception_form, huggingface_error_not_exception_form,
    ollama_error_not_exception_form⟩
  · intro name msg hmem
    exact getProvider_query_all hnd hmem
  · intro name r hmem
    exact getProvider_query_all hnd hmem

/-- Witness for C1 at a concrete input: two registered providers, one of
which raised; the result has both names, and the raiser's entry is the
attributed zero-latency exception outcome. -/
theorem query_all_total_coverage_witness :
    (query_all_async [("a", .ok ⟨"m", "hi", 1, none, 0, none⟩), ("b", .exn "kaput")]).length = 2 ∧
    getProvider (query_all_async [("a", .ok ⟨"m", "hi", 1, none, 0, none⟩), ("b", .exn "kaput")])
      "b" = some (exnResponse "b" "kaput") :=
  ⟨(query_all_total_coverage
      [("a", .ok ⟨"m", "hi", 1, none, 0, none⟩), ("b", .exn "kaput")] (by decide)).1,
   (query_all_total_coverage
      [("a", .ok ⟨"m", "hi", 1, none, 0, none⟩), ("b", .exn "kaput")] (by decide)).2.2.1
     "b" "kaput" (by decide)⟩

/-- Whether an external call raised. -/
def exceptFault {ε α : Type} : Except ε α → Bool
  | .ok _ => false
  | .error _ => true

/-- The fault condition of `GeminiProvider.generate_async`: missing
credential, missing package, or a raised backend call. -/
def geminiFault (key : Option String) (env : GeminiEnv) : Bool :=
  !pyTruthy key || !env.packageInstalled || exceptFault env.callResult

/-- The fault condition of `GroqProvider.generate_async`. -/
def groqFault (key : Option String) (env : GroqEnv) : Bool :=
  !pyTruthy key || !env.packageInstalled || exceptFault env.callResult

/-- The fault condition of the httpx-based remote providers: missing
credential, non-200 response, or a raised request. -/
def httpFault (key : Option String) (env : HttpEnv) : Bool :=
  !pyTruthy key ||
    (match env.result with
     | .ok h => h.status != 200
     | .error _ => true)

/-- The fault condition of `OllamaProvider.generate_async`: non-200 response
or a raised request. -/
def ollamaFault (env : OllamaEnv) : Bool :=
  match env.result with
  | .ok (status, _) => status != 200
  | .error _ => true

theorem append_ne_empty_left (s t : String) (hs : s.length ≠ 0) : (s ++ t) ≠ "" := by
  intro h
  have hl := congrArg String.length h
  rw [String.length_append] at hl
  simp at hl
  exact hs hl.1

theorem requestFailed_ne_empty (t : String) : ("Request failed: " ++ t) ≠ "" :=
  append_ne_empty_left _ _ (by decide)

theorem ollamaApiError_ne_empty (status : Nat) :
    ("Ollama API error: " ++ toString status) ≠ "" :=
  append_ne_empty_left _ _ (by decide)

theorem apiError_ne_empty (status : Nat) (detail : Option String) :
    apiErrorMsg status detail ≠ "" := by
  rw [apiErrorMsg.eq_def]
  apply append_ne_empty_left
  rw [String.length_append]
  have h : "API error: ".length = 11 := rfl
  omega

theorem gemini_fault_spec (key : Option String) (model : String) (env : GeminiEnv) :
    ((geminiGenerate key model env).success = false ↔ geminiFault key env = true) ∧
    (geminiFault key env = true →
      (geminiGenerate key model env).content = "" ∧
      ((geminiGenerate key model env).latency = 0 ∨
        (geminiGenerate key model env).latency = env.latency) ∧
      (geminiGenerate key model env).error ≠ none ∧
      (geminiGenerate key model env).error ≠ some "") := by
  rcases env with ⟨pkg, cr, lat⟩
  cases hk : pyTruthy key <;> cases pkg <;> rcases cr with v | e <;>
    simp [geminiGenerate, geminiFault, exceptFault, LLMResponse.success, hk,
      requestFailed_ne_empty]

theorem groq_fault_spec (key : Option String) (model : String) (env : GroqEnv) :
    ((groqGenerate key model env).success = false ↔ groqFault key env = true) ∧
    (groqFault key env = true →
      (groqGenerate key model env).content = "" ∧
      ((groqGenerate key model env).latency = 0 ∨
        (groqGenerate key model env).latency = env.latency) ∧
      (groqGenerate key model env).error ≠ none ∧
      (groqGenerate key model env).error ≠ some "") := by
  rcases env with ⟨pkg, cr, lat⟩
  cases hk : pyTruthy key <;> cases pkg <;> rcases cr with ⟨c, tk⟩ | e <;>
    simp [groqGenerate, groqFault, exceptFault, LLMResponse.success, hk,
      requestFailed_ne_empty]

theorem openrouter_fault_spec (key : Option String) (model : String) (env : HttpEnv) :
    ((openrouterGenerate key model env).success = false ↔ httpFault key env = true) ∧
    (httpFault key env = true →
      (openrouterGenerate key model env).content = "" ∧
      ((openrouterGenerate key model env).latency = 0 ∨
        (openrouterGenerate key model env).latency = env.latency) ∧
      (openrouterGenerate key model env).error ≠ none ∧
      (openrouterGenerate key model env).error ≠ some "") := by
  rcases env with ⟨res, lat⟩
  rcases res with err | ex
  · cases hk : pyTruthy key <;>
      simp [openrouterGenerate, httpFault, LLMResponse.success, hk, requestFailed_ne_empty]
  · cases hk : pyTruthy key
    · simp [openrouterGenerate, httpFault, LLMResponse.success, hk]
    · by_cases hs : ex.status = 200 <;>
        simp [openrouterGenerate, httpFault, LLMResponse.success, hk, hs, apiError_ne_empty]

theorem huggingface_fault_spec (key : Option String) (model : String) (env : HttpEnv) :
    ((huggingfaceGenerate key model env).success = false ↔ httpFault key env = true) ∧
    (httpFault key env = true →
      (huggingfaceGenerate key model env).content = "" ∧
      ((huggingfaceGenerate key model env).latency = 0 ∨
        (huggingfaceGenerate key model env).latency = env.latency) ∧
      (huggingfaceGenerate key model env).error ≠ none ∧
      (huggingfaceGenerate key model env).error ≠ some "") := by
  rcases env with ⟨res, lat⟩
  rcases res with err | ex
  · cases hk : pyTruthy key <;>
      simp [huggingfaceGenerate, httpFault, LLMResponse.success, hk, requestFailed_ne_empty]
  · cases hk : pyTruthy key
    · simp [huggingfaceGenerate, httpFault, LLMResponse.success, hk]
    · by_cases hs : ex.status = 200 <;>
        simp [huggingfaceGenerate, httpFault, LLMResponse.success, hk, hs, apiError_ne_empty]

theorem ollama_fault_spec (model : String) (env : OllamaEnv) :
    ((ollamaGenerate model env).success = false ↔ ollamaFault env = true) ∧
    (ollamaFault env = true →
      (ollamaGenerate model env).content = "" ∧
      (ollamaGenerate model env).latency = env.latency ∧
      (ollamaGenerate model env).error ≠ none ∧
      (ollamaGenerate model env).error ≠ some "") := by
  rcases env with ⟨res, lat⟩
  rcases res with exn | ⟨s, c⟩
  · rcases exn with _ | msg <;>
      simp [ollamaGenerate, ollamaFault, LLMResponse.success, requestFailed_ne_empty]
  · by_cases hs : s = 200 <;>
      simp [ollamaGenerate, ollamaFault, LLMResponse.success, hs, ollamaApiError_ne_empty]

/-- Claim C3: for every provider variant, `generate` never propagates a
fault to its caller — in the embedding each `generate` is a total function
into `LLMResponse` over every environment, including those where the backend
call raised — and every backend-specific fault (missing credential, missing
dependency, non-2xx response, transport error or other raised call) yields a
failed outcome carrying a present, non-empty error description, with zero
latency or the latency measured up to the failure point.  Each provider's
conjunct characterises failure exactly by its fault condition and states the
converted outcome's shape under it. -/
theorem generate_absorbs_all_faults
    (gkey : Option String) (gmodel : String) (genv : GeminiEnv)
    (qkey : Option String) (qmodel : String) (qenv : GroqEnv)
    (rkey : Option String) (rmodel : String) (renv : HttpEnv)
    (hkey : Option String) (hmodel : String) (henv : HttpEnv)
    (omodel : String) (oenv : OllamaEnv) :
    (((geminiGenerate gkey gmodel genv).success = false ↔ geminiFault gkey genv = true) ∧
      (geminiFault gkey genv = true →
        (geminiGenerate gkey gmodel genv).content = "" ∧
        ((geminiGenerate gkey gmodel genv).latency = 0 ∨
          (geminiGenerate gkey gmodel genv).latency = genv.latency) ∧
        (geminiGenerate gkey gmodel genv).error ≠ none ∧
        (geminiGenerate gkey gmodel genv).error ≠ some "")) ∧
    (((groqGenerate qkey qmodel qenv).success = false ↔ groqFault qkey qenv = true) ∧
      (groqFault qkey qenv = true →
        (groqGenerate qkey qmodel qenv).content = "" ∧
        ((groqGenerate qkey qmodel qenv).latency = 0 ∨
          (groqGenerate qkey qmodel qenv).latency = qenv.latency) ∧
        (groqGenerate qkey qmodel qenv).error ≠ none ∧
        (groqGenerate qkey qmodel qenv).error ≠ some "")) ∧
    (((openrouterGenerate rkey rmodel renv).success = false ↔ httpFault rkey renv = true) ∧
      (httpFault rkey renv = true →
        (openrouterGenerate rkey rmodel renv).content = "" ∧
        ((openrouterGenerate rkey rmodel renv).latency = 0 ∨
          (openrouterGenerate rkey rmodel renv).latency = renv.latency) ∧
        (openrouterGenerate rkey rmodel renv).error ≠ none ∧
        (openrouterGenerate rkey rmodel renv).error ≠ some "")) ∧
    (((huggingfaceGenerate hkey hmodel henv).success = false ↔ httpFault hkey henv = true) ∧
      (httpFault hkey henv = true →
        (huggingfaceGenerate hkey hmodel henv).content = "" ∧
        ((huggingfaceGenerate hkey hmodel henv).latency = 0 ∨
          (huggingfaceGenerate hkey hmodel henv).latency = henv.latency) ∧
        (huggingfaceGenerate hkey hmodel henv).error ≠ none ∧
        (huggingfaceGenerate hkey hmodel henv).error ≠ some "")) ∧
    (((ollamaGenerate omodel oenv).success = false ↔ ollamaFault oenv = true) ∧
      (ollamaFault oenv = true →
        (ollamaGenerate omodel oenv).content = "" ∧
        (ollamaGenerate omodel oenv).latency = oenv.latency ∧
        (ollamaGenerate omodel oenv).error ≠ none ∧
        (ollamaGenerate omodel oenv).error ≠ some "")) :=
  ⟨gemini_fault_spec gkey gmodel genv, groq_fault_spec qkey qmodel qenv,
   openrouter_fault_spec rkey rmodel renv, huggingface_fault_spec hkey hmodel henv,
   ollama_fault_spec omodel oenv⟩

/-- Witness for C3 at concrete faulty environments: a Gemini call that
raised `"boom"` after 7 seconds, and an Ollama POST answered with status
500 after 3 seconds — both come back as well-formed failed outcomes. -/
theorem generate_absorbs_all_faults_witness :
    ((geminiGenerate (some "k") "gemini-pro" ⟨true, Except.error "boom", 7⟩).content = "" ∧
      ((geminiGenerate (some "k") "gemini-pro" ⟨true, Except.error "boom", 7⟩).latency = 0 ∨
        (geminiGenerate (some "k") "gemini-pro" ⟨true, Except.error "boom", 7⟩).latency =
          (GeminiEnv.mk true (Except.error "boom") 7).latency) ∧
      (geminiGenerate (some "k") "gemini-pro" ⟨true, Except.error "boom", 7⟩).error ≠ none ∧
      (geminiGenerate (some "k") "gemini-pro" ⟨true, Except.error "boom", 7⟩).error ≠ some "") ∧
    ((ollamaGenerate "llama3" ⟨Except.ok (500, ""), 3⟩).content = "" ∧
      (ollamaGenerate "llama3" ⟨Except.ok (500, ""), 3⟩).latency =
        (OllamaEnv.mk (Except.ok (500, "")) 3).latency ∧
      (ollamaGenerate "llama3" ⟨Except.ok (500, ""), 3⟩).error ≠ none ∧
      (ollamaGenerate "llama3" ⟨Except.ok (500, ""), 3⟩).error ≠ some "") :=
  have h := generate_absorbs_all_faults
    (some "k") "gemini-pro" ⟨true, Except.error "boom", 7⟩
    (some "k") "llama3-8b-8192" ⟨true, Except.ok ("", none), 1⟩
    (some "k") "m" ⟨Except.ok ⟨200, "", none, none⟩, 1⟩
    (some "k") "m" ⟨Except.ok ⟨200, "", none, none⟩, 1⟩
    "llama3" ⟨Except.ok (500, ""), 3⟩
  ⟨h.1.2 (by decide), h.2.2.2.2.2 (by decide)⟩

/-- Claim C4: a remote-API provider constructed without a credential returns,
for every prompt and every environment, the failed outcome with zero latency
whose error text names the missing credential; the result's independence of
the environment is exactly the statement that no network attempt is made. -/
theorem missing_credential_immediate_failure (model : String)
    (genv : GeminiEnv) (qenv : GroqEnv) (renv henv : HttpEnv) :
    geminiGenerate none model genv =
      ⟨model, "", 0, none, 0, some "Gemini API key not provided"⟩ ∧
    groqGenerate none model qenv =
      ⟨model, "", 0, none, 0, some "Groq API key not provided"⟩ ∧
    openrouterGenerate none model renv =
      ⟨model, "", 0, none, 0, some "OpenRouter API key not provided"⟩ ∧
    huggingfaceGenerate none model henv =
      ⟨model, "", 0, none, 0, some "HuggingFace API key not provided"⟩ :=
  ⟨rfl, rfl, rfl, rfl⟩

/-- Claim C6: with the scoring dependency unavailable,
`calculate_readability` returns the degraded metrics — word count from
whitespace splitting, sentence count equal to the number of `'.'`, `'!'` and
`'?'` characters clamped to a minimum of 1, average word length, and the
degraded-metrics marker instead of the two numeric scores (the `degraded`
constructor has no reading-ease field) — and on `"Short. Text."` in
particular the word count and sentence count are both 2. -/
theorem readability_degraded_fallback (env : TextstatEnv) (h : env.available = false) :
    (∀ text, calculate_readability env text =
      Readability.degraded (pyWords text).length
        (max 1 (countChar text '.' + countChar text '!' + countChar text '?'))
        (((pyWords text).map String.length).sum / (max 1 (pyWords text).length : ℕ))
        degradedMarker) ∧
    calculate_readability env "Short. Text." =
      Readability.degraded 2 2 (11 / 2) degradedMarker := by
  have hgen : ∀ text, calculate_readability env text =
      Readability.degraded (pyWords text).length
        (max 1 (countChar text '.' + countChar text '!' + countChar text '?'))
        (((pyWords text).map String.length).sum / (max 1 (pyWords text).length : ℕ))
        degradedMarker := by
    intro text
    rw [calculate_readability, h]
    rfl
  refine ⟨hgen, ?_⟩
  rw [hgen]
  have hw : pyWords "Short. Text." = ["Short.", "Text."] := by decide
  have hdot : countChar "Short. Text." '.' = 2 := by decide
  have hbang : countChar "Short. Text." '!' = 0 := by decide
  have hq : countChar "Short. Text." '?' = 0 := by decide
  have hm : (["Short.", "Text."].map String.length).sum = 11 := by decide
  rw [hw, hdot, hbang, hq, hm]
  norm_num

/-- Witness for C6 at the concrete unavailable environment. -/
theorem readability_degraded_fallback_witness :
    calculate_readability ⟨false, fun _ => 0, fun _ => 0, fun _ => 0⟩ "Short. Text." =
      Readability.degraded 2 2 (11 / 2) degradedMarker :=
  (readability_degraded_fallback ⟨false, fun _ => 0, fun _ => 0, fun _ => 0⟩ rfl).2

/-- Claim C8: for a successful outcome, `evaluate_response` assigns the
speed rating by strict latency thresholds — `<1s` "Very Fast", `<3s`
"Fast", `<5s` "Moderate", `<10s` "Slow", else "Very Slow" — so a latency of
exactly 1 second rates "Fast". -/
theorem evaluate_speed_rating_thresholds (env : TextstatEnv) (r : LLMResponse)
    (h : r.error = none) :
    (evaluate_response env r).speed_rating = some (speedRating r.latency) ∧
    (r.latency < 1 → speedRating r.latency = "Very Fast") ∧
    (1 ≤ r.latency → r.latency < 3 → speedRating r.latency = "Fast") ∧
    (3 ≤ r.latency → r.latency < 5 → speedRating r.latency = "Moderate") ∧
    (5 ≤ r.latency → r.latency < 10 → speedRating r.latency = "Slow") ∧
    (10 ≤ r.latency → speedRating r.latency = "Very Slow") ∧
    speedRating 1 = "Fast" := by
  refine ⟨?_, ?_, ?_, ?_, ?_, ?_, by norm_num [speedRating]⟩
  · rw [evaluate_response]
    simp [LLMResponse.success, h]
  · intro h1
    rw [speedRating, if_pos h1]
  · intro h1 h2
    rw [speedRating, if_neg (not_lt.mpr h1), if_pos h2]
  · intro h1 h2
    rw [speedRating, if_neg (not_lt.mpr (by linarith)), if_neg (not_lt.mpr h1), if_pos h2]
  · intro h1 h2
    rw [speedRating, if_neg (not_lt.mpr (by linarith)), if_neg (not_lt.mpr (by linarith)),
      if_neg (not_lt.mpr h1), if_pos h2]
  · intro h1
    rw [speedRating, if_neg (not_lt.mpr (by linarith)), if_neg (not_lt.mpr (by linarith)),
      if_neg (not_lt.mpr (by linarith)), if_neg (not_lt.mpr h1)]

/-- Witness for C8: a successful outcome with latency exactly 1 second is
rated "Fast". -/
theorem evaluate_speed_rating_thresholds_witness :
    (evaluate_response ⟨true, fun _ => 0, fun _ => 0, fun _ => 0⟩
        ⟨"m", "hi", 1, none, 0, none⟩).speed_rating = some (speedRating 1) ∧
    speedRating 1 = "Fast" :=
  ⟨(evaluate_speed_rating_thresholds ⟨true, fun _ => 0, fun _ => 0, fun _ => 0⟩
      ⟨"m", "hi", 1, none, 0, none⟩ rfl).1,
   (evaluate_speed_rating_thresholds ⟨true, fun _ => 0, fun _ => 0, fun _ => 0⟩
      ⟨"m", "hi", 1, none, 0, none⟩ rfl).2.2.1 (by norm_num) (by norm_num)⟩

/-- Claim C10: `compare_responses` on the empty outcome mapping returns the
zero-success report: zero total models, zero successful models, an empty
per-name evaluation record, no fastest/most-readable selection, and the
aggregate error marker `"All models failed"` — the empty input is reported
as aggregate failure. -/
theorem compare_empty_zero_success_report (env : TextstatEnv) :
    compare_responses env [] =
      { evaluations := [], total_models := 0, successful_models := 0,
        fastest_model := none, fastest_latency := none,
        most_readable_model := none, error := some "All models failed" } :=
  rfl

theorem register_comp_pred {α : Type} (name : String) (provider : α) (m : String) :
    ((fun p : String × α => p.1 == m) ∘
      (fun p : String × α => if p.1 == name then (p.1, provider) else p)) =
    (fun p : String × α => p.1 == m) := by
  funext p
  by_cases hp : p.1 == name
  · simp [Function.comp, hp]
  · simp [Function.comp, hp]

theorem getProvider_register_self {α : Type} (ps : List (String × α)) (name : String)
    (provider : α) : getProvider (register_provider ps name provider) name = some provider := by
  rw [register_provider]
  cases hAny : ps.any (fun p => p.1 == name) with
  | false =>
    rw [if_neg (by simp [hAny]), getProvider, List.find?_append]
    have hnone : ps.find? (fun p => p.1 == name) = none := by
      rw [List.find?_eq_none]
      intro x hx
      have := (List.any_eq_false.mp hAny) x hx
      simpa using this
    rw [hnone]
    simp
  | true =>
    rw [if_pos (by simp [hAny]), getProvider, List.find?_map, register_comp_pred]
    obtain ⟨x, hx, hpx⟩ := List.any_eq_true.mp hAny
    have hsome : (ps.find? (fun p => p.1 == name)).isSome := by
      rw [List.find?_isSome]
      exact ⟨x, hx, hpx⟩
    obtain ⟨q, hq⟩ := Option.isSome_iff_exists.mp hsome
    rw [hq]
    have hqname : (q.1 == name) = true := by simpa using List.find?_some hq
    simp [hqname, eq_of_beq hqname]

theorem getProvider_register_other {α : Type} (ps : List (String × α)) (name : String)
    (provider : α) (m : String) (hm : m ≠ name) :
    getProvider (register_provider ps name provider) m = getProvider ps m := by
  rw [register_provider]
  cases hAny : ps.any (fun p => p.1 == name) with
  | false =>
    rw [if_neg (by simp [hAny]), getProvider, List.find?_append]
    have hnm : (name == m) = false := by
      rw [beq_eq_false_iff_ne]
      exact fun h => hm h.symm
    have htail : List.find? (fun p : String × α => p.1 == m) [(name, provider)] = none := by
      simp [List.find?_cons, hnm]
    rw [htail]
    simp [getProvider]
  | true =>
    rw [if_pos (by simp [hAny]), getProvider, List.find?_map, register_comp_pred, getProvider]
    cases hfind : ps.find? (fun p => p.1 == m) with
    | none => rfl
    | some q =>
      have hq1 : q.1 = m := eq_of_beq (by simpa using List.find?_some hfind)
      have hqname : q.1 ≠ name := by
        rw [hq1]
        exact hm
      simp [hqname]

/-- Claim C9: the dispatcher's provider-name-to-capability mapping is
mutated only by `register`: each read operation returns the state it was
given, and registering a binding replaces at most the binding for that name
while every other name's lookup is unchanged. -/
theorem provider_mapping_mutated_only_by_register (α : Type)
    (ps : List (String × α)) (name : String) (provider : α) (m : String)
    (qs : List (String × GenOutcome)) (rs : List (String × LLMResponse))
    (prefs : List String) (uc : UseCase) :
    getProvider (register_provider ps name provider) m =
      (if m = name then some provider else getProvider ps m) ∧
    (query_all_st qs).2 = qs ∧
    (query_best_st rs prefs).2 = rs ∧
    (get_provider_st ps m).2 = ps ∧
    (list_providers_st ps).2 = ps ∧
    (explain_st ps uc).2 = ps := by
  refine ⟨?_, rfl, rfl, rfl, rfl, rfl⟩
  by_cases hmn : m = name
  · subst hmn
    rw [if_pos rfl]
    exact getProvider_register_self ps m provider
  · rw [if_neg hmn]
    exact getProvider_register_other ps name provider m hmn

theorem mostReadable_fold_eq_scored (l : List (String × Evaluation)) :
    ∀ acc : Option String × Option ℚ,
      l.foldl (fun acc p => if easeGt (easeOf p.2) acc.2 then (some p.1, easeOf p.2) else acc)
          acc =
        (scoredSuccesses l).foldl
          (fun acc p => if easeGt (some p.2) acc.2 then (some p.1, some p.2) else acc) acc := by
  induction l with
  | nil => intro acc; rfl
  | cons p rest ih =>
    intro acc
    rw [List.foldl_cons, scoredSuccesses, List.filterMap_cons]
    cases he : easeOf p.2 with
    | none => exact ih acc
    | some q => exact ih _

theorem scored_fold_from_some (l : List (String × ℚ)) :
    ∀ b : String × ℚ,
      l.foldl (fun acc p => if easeGt (some p.2) acc.2 then (some p.1, some p.2) else acc)
          (some b.1, some b.2) =
        (some (l.foldl (fun best p => if p.2 > best.2 then p else best) b).1,
         some (l.foldl (fun best p => if p.2 > best.2 then p else best) b).2) := by
  induction l with
  | nil => intro b; rfl
  | cons p rest ih =>
    intro b
    rw [List.foldl_cons, List.foldl_cons]
    by_cases hpb : p.2 > b.2
    · simpa [easeGt, hpb] using ih p
    · simpa [easeGt, hpb] using ih b

theorem mostReadableLoop_eq_spec (l : List (String × Evaluation)) :
    mostReadableLoop l = spec_most_readable l := by
  rw [mostReadableLoop, spec_most_readable, mostReadable_fold_eq_scored]
  cases hs : scoredSuccesses l with
  | nil => rfl
  | cons x rest =>
    rw [firstArgmax, List.foldl_cons]
    have hstep : (if easeGt (some x.2) (Prod.snd ((none : Option String), (none : Option ℚ)))
        then (some x.1, some x.2)
        else ((none : Option String), (none : Option ℚ))) = (some x.1, some x.2) := by
      simp [easeGt]
    rw [hstep, scored_fold_from_some]
    rfl

theorem foldl_max_spec (rest : List (String × ℚ)) :
    ∀ x : String × ℚ,
      (rest.foldl (fun best p => if p.2 > best.2 then p else best) x) ∈ x :: rest ∧
      x.2 ≤ (rest.foldl (fun best p => if p.2 > best.2 then p else best) x).2 ∧
      ∀ p ∈ rest, p.2 ≤ (rest.foldl (fun best p => if p.2 > best.2 then p else best) x).2 := by
  induction rest with
  | nil =>
    intro x
    exact ⟨List.mem_cons_self x [], le_refl _, by simp⟩
  | cons p rest ih =>
    intro x
    rw [List.foldl_cons]
    by_cases hpx : p.2 > x.2
    · rw [if_pos hpx]
      obtain ⟨hmem, hle, hall⟩ := ih p
      refine ⟨List.mem_cons_of_mem _ hmem, le_trans (le_of_lt hpx) hle, ?_⟩
      intro q hq
      rcases List.mem_cons.mp hq with h | h
      · rw [h]
        exact hle
      · exact hall q h
    · rw [if_neg hpx]
      obtain ⟨hmem, hle, hall⟩ := ih x
      refine ⟨?_, hle, ?_⟩
      · rcases List.mem_cons.mp hmem with h | h
        · rw [h]
          exact List.mem_cons_self x (p :: rest)
        · exact List.mem_cons_of_mem _ (List.mem_cons_of_mem _ h)
      · intro q hq
        rcases List.mem_cons.mp hq with h | h
        · rw [h]
          exact le_trans (not_lt.mp hpx) hle
        · exact hall q h

theorem firstArgmax_is_max (l : List (String × ℚ)) (m : String × ℚ)
    (h : firstArgmax l = some m) : m ∈ l ∧ ∀ p ∈ l, p.2 ≤ m.2 := by
  cases l with
  | nil => simp [firstArgmax] at h
  | cons x rest =>
    rw [firstArgmax] at h
    obtain ⟨hmem, hle, hall⟩ := foldl_max_spec rest x
    have hm := Option.some.inj h
    subst hm
    refine ⟨hmem, ?_⟩
    intro p hp
    rcases List.mem_cons.mp hp with hpx | hpr
    · exact hpx ▸ hle
    · exact hall p hpr

/-- Claim C7: in the comparison report, the most-readable model is selected
by the highest computed reading-ease score among the successful evaluations
that carry one; successes whose readability metrics took the degraded
fallback form (which has no reading-ease field) are excluded, and when no
success carries a computed score the field is `none` rather than a name
ranked by a default.  Conjunct 1 equates the code's selection loop with the
specification-side selector over the computed-score successes; conjunct 2
makes the absent case explicit; conjunct 3 states that the selector indeed
returns an entry of the list whose score is maximal. -/
theorem compare_most_readable_highest_computed (env : TextstatEnv)
    (responses : List (String × LLMResponse)) :
    (compare_responses env responses).most_readable_model =
      spec_most_readable
        ((responses.map (fun p => (p.1, evaluate_response env p.2))).filter
          (fun p => p.2.success)) ∧
    (firstArgmax (scoredSuccesses
        ((responses.map (fun p => (p.1, evaluate_response env p.2))).filter
          (fun p => p.2.success))) = none →
      (compare_responses env responses).most_readable_model = none) ∧
    (∀ (l : List (String × ℚ)) (m : String × ℚ),
      firstArgmax l = some m → m ∈ l ∧ ∀ p ∈ l, p.2 ≤ m.2) := by
  have h1 : (compare_responses env responses).most_readable_model =
      spec_most_readable
        ((responses.map (fun p => (p.1, evaluate_response env p.2))).filter
          (fun p => p.2.success)) := by
    rw [compare_responses]
    cases hs : (responses.map (fun p => (p.1, evaluate_response env p.2))).filter
        (fun p => p.2.success) with
    | nil => simp [spec_most_readable, scoredSuccesses, firstArgmax]
    | cons s rest => simp [mostReadableLoop_eq_spec]
  refine ⟨h1, ?_, firstArgmax_is_max⟩
  intro hnone
  rw [h1, spec_most_readable, hnone]
  rfl

/-- Witness for C7: with one failed response the report's most-readable
field is absent; and on a concrete two-element scored list the selector
returns the member with the larger score, which bounds the other. -/
theorem compare_most_readable_highest_computed_witness :
    (compare_responses ⟨false, fun _ => 0, fun _ => 0, fun _ => 0⟩
        [("a", ⟨"m", "", 0, none, 0, some "boom"⟩)]).most_readable_model = none ∧
    ("y", (2 : ℚ)) ∈ [("x", (1 : ℚ)), ("y", (2 : ℚ))] ∧
    ("x", (1 : ℚ)).2 ≤ ("y", (2 : ℚ)).2 :=
  ⟨(compare_most_readable_highest_computed ⟨false, fun _ => 0, fun _ => 0, fun _ => 0⟩
      [("a", ⟨"m", "", 0, none, 0, some "boom"⟩)]).2.1 (by decide),
   ((compare_most_readable_highest_computed ⟨false, fun _ => 0, fun _ => 0, fun _ => 0⟩
      [("a", ⟨"m", "", 0, none, 0, some "boom"⟩)]).2.2 [("x", 1), ("y", 2)] ("y", 2)
      (by decide)).1,
   ((compare_most_readable_highest_computed ⟨false, fun _ => 0, fun _ => 0, fun _ => 0⟩
      [("a", ⟨"m", "", 0, none, 0, some "boom"⟩)]).2.2 [("x", 1), ("y", 2)] ("y", 2)
      (by decide)).2 ("x", 1) (by decide)⟩

end MultiLLM
